import Mathlib

/-!
Shallow embedding of the work-stealing deque pool in `src/pool/deque.c`
(argobots, deque pool implementation modelled on the .NET WorkStealingQueue).

Modelling conventions.

The C code is single-producer multi-consumer; the claims checked here are
about sequential executions (each operation runs to completion before the
next begins), so the embedding is a sequential projection: each C function
becomes a pure function from the deque state to the deque state (plus a
return value).  Under a sequential execution every lock acquisition
succeeds immediately and every locked re-check of a condition sees exactly
the value seen before the lock, so locking has no effect on data flow; we
keep the re-checks literally and record each `ABTI_mutex_spinlock` call by
incrementing a counter field, which makes "the foreign lock was (not)
acquired" observable.

Machine integers: `size_t` values are embedded as `Nat` with explicit
wrapping `% W` where the C arithmetic can wrap (`W = 2 ^ 64`); unsigned
subtraction `a - b` becomes `(a + W - b) % W`.

Work items (`ABTI_unit *`): embedded as `Nat` identifiers; an array slot
holds `Option Nat`, with `none` standing for `ABT_UNIT_NULL`.

Arrays: the backing array is a `List (Option Nat)`; slot reads
`m->unit_array[i]` become `List.getD i none` and writes become `List.set`.
`ABTU_malloc` is not part of the sources under verification (it belongs to
the surrounding runtime); freshly allocated cells are modelled as `none`,
following the spec, which requires the deque to be created empty and every
slot outside the live range to be NULL.

Loops: the three `while (1)` / `for` loops become structurally recursive
functions on an explicit iteration budget (`fuel`); a result of `none` at
fuel 0 means the loop had not returned within that many iterations.  For
the pop and steal loops every retry strictly shrinks the live range, so
the wrapper functions pass a budget (`tail_idx + 1`) that can never be
exhausted on a machine-representable state; the remove scan has no such
bound (its loop counter is unsigned and its exit test can be vacuous), so
`deque_remove` takes the budget as an explicit argument.
-/

namespace Deque

/-- Bit width of `size_t` is 64; all index arithmetic wraps modulo `W`. -/
def W : Nat := 2 ^ 64

/-- Largest `size_t` value, `SIZE_MAX` in the C source. -/
def SIZE_MAX : Nat := W - 1

/-- Initial capacity of the backing array (`INITIAL_LENGTH` in the source). -/
def INITIAL_LENGTH : Nat := 256

/-- The deque state, `data_t` in the source.  `foreign_lock` counts calls to
`ABTI_mutex_spinlock` on the foreign lock (see the module docstring). -/
structure data_t where
  unit_array : List (Option Nat)
  array_length : Nat
  mask : Nat
  head_idx : Nat
  tail_idx : Nat
  foreign_lock : Nat
deriving DecidableEq, Repr

/-- The state built by `deque_init`: a fresh array of `INITIAL_LENGTH` NULL
slots, `mask = INITIAL_LENGTH - 1`, `head_idx = tail_idx = 0`. -/
def deque_init : data_t :=
  { unit_array := List.replicate INITIAL_LENGTH none
    array_length := INITIAL_LENGTH
    mask := INITIAL_LENGTH - 1
    head_idx := 0
    tail_idx := 0
    foreign_lock := 0 }

/-- The wrap guard of `deque_push` (source lines 66-73): when the snapshot of
the tail equals `SIZE_MAX`, take the foreign lock, re-check, and collapse both
indices into the ring window with `& mask`. -/
def wrapGuard (m : data_t) : data_t :=
  let m := { m with foreign_lock := m.foreign_lock + 1 }
  if m.tail_idx = SIZE_MAX then
    { m with head_idx := m.head_idx &&& m.mask
             tail_idx := m.tail_idx &&& m.mask }
  else m

/-- The grow step of `deque_push` (source lines 88-98): allocate an array of
`array_length << 1` cells, copy `old[(i + head) & mask]` into cell `i` for
`i < array_length` (the remaining cells of the fresh allocation are modelled
as NULL, see the module docstring), then set `head_idx = 0`,
`tail_idx = count` and `mask = (mask << 1) | 1`.  Note that the source never
updates `array_length` here. -/
def grow (m : data_t) : data_t :=
  let head := m.head_idx
  let count := (m.tail_idx + W - m.head_idx) % W
  let new_array := (List.range ((m.array_length <<< 1) % W)).map
      (fun i => if i < m.array_length
                then m.unit_array.getD (((i + head) % W) &&& m.mask) none
                else none)
  { m with unit_array := new_array
           head_idx := 0
           tail_idx := count
           mask := ((m.mask <<< 1) % W) ||| 1 }

/-- `deque_push` (source lines 59-106).  After the wrap guard, the fast path
(at least two slots of space) stores the item and publishes `tail + 1`; the
slow path takes the lock, grows when `count >= mask`, and stores the item.
The statement that follows the slow-path store in the source is
`m->tail_idx + tail + 1;`, an expression with no effect, so the slow path
leaves `tail_idx` unchanged after the optional grow; the embedding mirrors
this. -/
def deque_push (m : data_t) (u : Nat) : data_t :=
  let m := if m.tail_idx = SIZE_MAX then wrapGuard m else m
  let tail := m.tail_idx
  if tail < (m.head_idx + m.mask) % W then
    { m with unit_array := m.unit_array.set (tail &&& m.mask) (some u)
             tail_idx := (tail + 1) % W }
  else
    let m := { m with foreign_lock := m.foreign_lock + 1 }
    let count := (m.tail_idx + W - m.head_idx) % W
    let st := if count ≥ m.mask then (grow m, count) else (m, tail)
    { st.1 with unit_array := st.1.unit_array.set (st.2 &&& st.1.mask) (some u) }

/-- One pass of the `while (1)` loop of `deque_pop_local` (source lines
112-158), with an explicit iteration budget.  A retry happens only when the
slot under the (already decremented) tail is a tombstone. -/
def popLoop : Nat → data_t → Option Nat × data_t
  | 0, m => (none, m)
  | fuel + 1, m =>
    let tail := m.tail_idx
    if m.head_idx ≥ tail then (none, m)
    else
      let tail := (tail + W - 1) % W
      let m := { m with tail_idx := tail }
      if m.head_idx ≤ tail then
        let idx := tail &&& m.mask
        match m.unit_array.getD idx none with
        | none => popLoop fuel m
        | some u => (some u, { m with unit_array := m.unit_array.set idx none })
      else
        let m := { m with foreign_lock := m.foreign_lock + 1 }
        if m.head_idx ≤ tail then
          let idx := tail &&& m.mask
          match m.unit_array.getD idx none with
          | none => popLoop fuel m
          | some u => (some u, { m with unit_array := m.unit_array.set idx none })
        else
          (none, { m with tail_idx := (tail + 1) % W })

/-- `deque_pop_local` (source lines 108-159).  Every loop retry strictly
decreases `tail_idx`, so a budget of `tail_idx + 1` iterations is never
exhausted on a machine-representable state. -/
def deque_pop_local (m : data_t) : Option Nat × data_t :=
  popLoop (m.tail_idx + 1) m

/-- One pass of the `while (1)` loop of `deque_pop_steal` (source lines
166-195), with an explicit iteration budget.  A retry happens only when the
slot under the (already advanced) head is a tombstone. -/
def stealLoop : Nat → data_t → Option Nat × data_t
  | 0, m => (none, m)
  | fuel + 1, m =>
    if m.head_idx ≥ m.tail_idx then (none, m)
    else
      let m := { m with foreign_lock := m.foreign_lock + 1 }
      let head := m.head_idx
      let m := { m with head_idx := (head + 1) % W }
      if head < m.tail_idx then
        let idx := head &&& m.mask
        match m.unit_array.getD idx none with
        | none => stealLoop fuel m
        | some u => (some u, { m with unit_array := m.unit_array.set idx none })
      else
        (none, { m with head_idx := head })

/-- `deque_pop_steal` (source lines 162-196).  Every loop retry strictly
increases `head_idx` toward the fixed `tail_idx`, so a budget of
`tail_idx + 1` iterations is never exhausted on a machine-representable
state. -/
def deque_pop_steal (m : data_t) : Option Nat × data_t :=
  stealLoop (m.tail_idx + 1) m

/-- The linear scan of `deque_remove` (source lines 211-236):
`for (size_t i = tail_idx - 2; i >= head_idx; i--)`, with an explicit
iteration budget.  The result is `some true` for `ABT_SUCCESS`, `some false`
for `ABT_ERR_POOL`, and `none` when the budget ran out before the loop
returned.  The loop counter is unsigned, so `i - 1` wraps to `SIZE_MAX`
below zero, exactly as `(i + W - 1) % W`. -/
def removeLoop (unit : Nat) : Nat → Nat → data_t → Option Bool × data_t
  | 0, _, m => (none, m)
  | fuel + 1, i, m =>
    if i ≥ m.head_idx then
      if m.unit_array.getD (i &&& m.mask) none = some unit then
        let m := { m with foreign_lock := m.foreign_lock + 1 }
        if m.unit_array.getD (i &&& m.mask) none = none then
          (some false, m)
        else
          let m := { m with unit_array := m.unit_array.set (i &&& m.mask) none }
          let m :=
            if i = m.tail_idx then { m with tail_idx := (m.tail_idx + W - 1) % W }
            else if i = m.head_idx then { m with head_idx := (m.head_idx + 1) % W }
            else m
          (some true, m)
      else
        removeLoop unit fuel ((i + W - 1) % W) m
    else (some false, m)

/-- `deque_remove` (source lines 198-239).  The tail fast path delegates to
`deque_pop_local` and maps a non-NULL result to `ABT_SUCCESS`.  The scan
budget is an explicit argument because the C scan has no intrinsic bound:
its exit test `i >= head_idx` is vacuous when `head_idx = 0`. -/
def deque_remove (fuel : Nat) (m : data_t) (unit : Nat) : Option Bool × data_t :=
  if m.unit_array.getD (((m.tail_idx + W - 1) % W) &&& m.mask) none = some unit then
    let r := deque_pop_local m
    (some r.1.isSome, r.2)
  else
    removeLoop unit fuel ((m.tail_idx + W - 2) % W) m

/-- `deque_get_size` (source lines 52-57): the unsigned difference of the
indices. -/
def deque_get_size (m : data_t) : Nat :=
  (m.tail_idx + W - m.head_idx) % W

/-- Push the items `a, a + 1, ..., a + k - 1` in order onto state `m`. -/
def pushRange (m : data_t) (a : Nat) : Nat → data_t
  | 0 => m
  | k + 1 => deque_push (pushRange m a k) (a + k)

/-- Push the items `0, 1, ..., n - 1` in order into a fresh deque. -/
def pushN (n : Nat) : data_t :=
  pushRange deque_init 0 n

/-- Run `k` local pops in sequence, collecting the returned values. -/
def popSeq : Nat → data_t → List (Option Nat) × data_t
  | 0, m => ([], m)
  | k + 1, m =>
    let r := deque_pop_local m
    let rest := popSeq k r.2
    (r.1 :: rest.1, rest.2)

/-- Run `k` steals in sequence, collecting the returned values. -/
def stealSeq : Nat → data_t → List (Option Nat) × data_t
  | 0, m => ([], m)
  | k + 1, m =>
    let r := deque_pop_steal m
    let rest := stealSeq k r.2
    (r.1 :: rest.1, rest.2)

/-- Closed form of the state after `n ≤ 255` pushes into a fresh deque: items
`0 .. n - 1` occupy the first `n` slots, all pushes took the fast path. -/
def stA (n : Nat) : data_t :=
  { unit_array := (List.range n).map some ++ List.replicate (256 - n) none
    array_length := 256
    mask := 255
    head_idx := 0
    tail_idx := n
    foreign_lock := 0 }

/-- Closed form of the state after 256 pushes into a fresh deque: the 256th
push took the locked slow path and grew the ring (mask 511), stored item 255
in slot 255, but left `tail_idx` at 255 because the tail update in the source
has no effect. -/
def st256 : data_t :=
  { unit_array := (List.range 256).map some ++ List.replicate 256 none
    array_length := 256
    mask := 511
    head_idx := 0
    tail_idx := 255
    foreign_lock := 1 }

/-- Closed form of the state after `n` pushes, `257 ≤ n ≤ 512`: pushes after
the grow take the fast path again, the first of them overwriting slot 255
(and hence item 255). -/
def stB (n : Nat) : data_t :=
  { unit_array := (List.range 255).map some ++ (List.range' 256 (n - 256)).map some
                    ++ List.replicate (513 - n) none
    array_length := 256
    mask := 511
    head_idx := 0
    tail_idx := n - 1
    foreign_lock := 1 }

/-- Closed form of the state after `k ≤ 255` local pops from `st256`. -/
def pA (k : Nat) : data_t :=
  { unit_array := (List.range (255 - k)).map some ++ List.replicate k none
                    ++ some 255 :: List.replicate 256 none
    array_length := 256
    mask := 511
    head_idx := 0
    tail_idx := 255 - k
    foreign_lock := 1 }

/-- Closed form of the state after `k ≤ 255` steals from `st256`. -/
def sSt (k : Nat) : data_t :=
  { unit_array := List.replicate k none ++ (List.range' k (256 - k)).map some
                    ++ List.replicate 256 none
    array_length := 256
    mask := 511
    head_idx := k
    tail_idx := 255
    foreign_lock := 1 + k }

/-- A deque state with the tail at `SIZE_MAX` and two live items (in slots
253 and 254, the residues of the head and of `SIZE_MAX - 2`), satisfying all
the structural invariants with `L = 256` and `T - H = 2 < mask`. -/
def wrapState : data_t :=
  { unit_array := List.replicate 253 none ++ [some 100, some 101, none]
    array_length := 256
    mask := 255
    head_idx := W - 3
    tail_idx := W - 1
    foreign_lock := 0 }

/-- A deque state with the tail at `SIZE_MAX` and a full ring (`T - H = L`),
satisfying all the structural invariants: every slot is inside the live
range and holds an item. -/
def wrapFullState : data_t :=
  { unit_array := (List.range 256).map some
    array_length := 256
    mask := 255
    head_idx := W - 257
    tail_idx := W - 1
    foreign_lock := 0 }

/-! Helper lemmas. -/

theorem getD_set_self (l : List (Option Nat)) (i : Nat) (a : Option Nat)
    (h : i < l.length) : (l.set i a).getD i none = a := by
  induction l generalizing i with
  | nil => simp at h
  | cons x xs ih =>
    cases i with
    | zero => rfl
    | succ j => simpa using ih j (by simpa using h)

theorem getD_set_ne (l : List (Option Nat)) (i j : Nat) (a : Option Nat)
    (h : i ≠ j) : (l.set i a).getD j none = l.getD j none := by
  induction l generalizing i j with
  | nil => rfl
  | cons x xs ih =>
    cases i with
    | zero => cases j with
      | zero => exact absurd rfl h
      | succ j2 => rfl
    | succ i2 => cases j with
      | zero => rfl
      | succ j2 => simpa using ih i2 j2 (by omega)

theorem getD_replicate (n k : Nat) :
    (List.replicate n (none : Option Nat)).getD k none = none := by
  induction n generalizing k with
  | zero => rfl
  | succ m ih =>
    cases k with
    | zero => rfl
    | succ k2 => exact ih k2

theorem pushRange_add (m : data_t) (a j k : Nat) :
    pushRange m a (j + k) = pushRange (pushRange m a j) (a + j) k := by
  induction k with
  | zero => rfl
  | succ n ih => simp [pushRange, ih, Nat.add_assoc]

theorem popSeq_add (j k : Nat) (m : data_t) :
    popSeq (j + k) m =
      ((popSeq j m).1 ++ (popSeq k (popSeq j m).2).1, (popSeq k (popSeq j m).2).2) := by
  induction j generalizing m with
  | zero => simp [popSeq]
  | succ n ih =>
    have hn : n + 1 + k = (n + k) + 1 := by omega
    rw [hn]
    simp [popSeq, ih]

theorem stealSeq_add (j k : Nat) (m : data_t) :
    stealSeq (j + k) m =
      ((stealSeq j m).1 ++ (stealSeq k (stealSeq j m).2).1, (stealSeq k (stealSeq j m).2).2) := by
  induction j generalizing m with
  | zero => simp [stealSeq]
  | succ n ih =>
    have hn : n + 1 + k = (n + k) + 1 := by omega
    rw [hn]
    simp [stealSeq, ih]

/-! Staged evaluation of the long concrete scenarios.  Each stage advances
the state by at most 64 operations, keeping the evaluation depth bounded;
the intermediate states are the closed forms defined above. -/

set_option maxRecDepth 1000000

theorem push_stage_64 : pushRange deque_init 0 64 = stA 64 := by decide

theorem push_stage_128 : pushRange (stA 64) 64 64 = stA 128 := by decide

theorem push_stage_192 : pushRange (stA 128) 128 64 = stA 192 := by decide

theorem push_stage_255 : pushRange (stA 192) 192 63 = stA 255 := by decide

theorem push_stage_256 : deque_push (stA 255) 255 = st256 := by decide

theorem push_stage_257 : deque_push st256 256 = stB 257 := by decide

theorem push_stage_320 : pushRange st256 256 64 = stB 320 := by decide

theorem push_stage_384 : pushRange (stB 320) 320 64 = stB 384 := by decide

theorem push_stage_448 : pushRange (stB 384) 384 64 = stB 448 := by decide

theorem push_stage_512 : pushRange (stB 448) 448 64 = stB 512 := by decide

theorem pushN_255 : pushN 255 = stA 255 := by
  have h1 : pushN 255 = pushRange (pushRange (pushRange (pushRange deque_init 0 64) 64 64) 128 64) 192 63 := by
    rw [pushN, show (255 : Nat) = 64 + (64 + (64 + 63)) from rfl]
    rw [pushRange_add, pushRange_add, pushRange_add]
  rw [h1, push_stage_64, push_stage_128, push_stage_192, push_stage_255]

theorem pushN_256 : pushN 256 = st256 := by
  have h1 : pushN 256 = pushRange (pushN 255) 255 1 := by
    rw [pushN, pushN, show (256 : Nat) = 255 + 1 from rfl, pushRange_add]
  rw [h1, pushN_255]
  show deque_push (stA 255) (255 + 0) = st256
  exact push_stage_256

theorem pushN_257 : pushN 257 = stB 257 := by
  have h1 : pushN 257 = pushRange (pushN 256) 256 1 := by
    rw [pushN, pushN, show (257 : Nat) = 256 + 1 from rfl, pushRange_add]
  rw [h1, pushN_256]
  show deque_push st256 (256 + 0) = stB 257
  exact push_stage_257

theorem pushN_512 : pushN 512 = stB 512 := by
  have h1 : pushN 512 = pushRange (pushRange (pushRange (pushRange (pushN 256) 256 64) 320 64) 384 64) 448 64 := by
    rw [pushN, show (512 : Nat) = 256 + (64 + (64 + (64 + 64))) from rfl]
    rw [pushRange_add, pushRange_add, pushRange_add, pushRange_add, ← pushN]
  rw [h1, pushN_256, push_stage_320, push_stage_384, push_stage_448, push_stage_512]

theorem pop_stage_64 : popSeq 64 st256 = ((List.range' 191 64).reverse.map some, pA 64) := by decide

theorem pop_stage_128 : popSeq 64 (pA 64) = ((List.range' 127 64).reverse.map some, pA 128) := by decide

theorem pop_stage_192 : popSeq 64 (pA 128) = ((List.range' 63 64).reverse.map some, pA 192) := by decide

theorem pop_stage_255 : popSeq 63 (pA 192) = ((List.range' 0 63).reverse.map some, pA 255) := by decide

theorem pop_stage_257 : popSeq 2 (pA 255) = ([none, none], pA 255) := by decide

theorem steal_stage_64 : stealSeq 64 st256 = ((List.range' 0 64).map some, sSt 64) := by decide

theorem steal_stage_128 : stealSeq 64 (sSt 64) = ((List.range' 64 64).map some, sSt 128) := by decide

theorem steal_stage_192 : stealSeq 64 (sSt 128) = ((List.range' 128 64).map some, sSt 192) := by decide

theorem steal_stage_255 : stealSeq 63 (sSt 192) = ((List.range' 192 63).map some, sSt 255) := by decide

theorem steal_stage_257 : stealSeq 2 (sSt 255) = ([none, none], sSt 255) := by decide

/-! Claim theorems. -/

/-- C1: the claim states that the push slow path stores the item at
`array[t & mask]` and then publishes `T = t + 1`, every push increasing
`T - H` by one.  The code evaluated at the failing input shows otherwise:
the 256th push into a fresh deque takes the locked slow path (the lock
counter moves 0 to 1), stores item 255 in slot 255, but leaves `tail_idx`
at 255 because the publication statement `m->tail_idx + tail + 1;` in the
source has no effect, so `T - H` is unchanged by this push. -/
theorem c1_slow_path_does_not_publish_tail :
    (pushN 255).tail_idx = 255 ∧ (pushN 255).head_idx = 0 ∧
    (pushN 255).foreign_lock = 0 ∧
    (pushN 256).foreign_lock = 1 ∧
    (pushN 256).unit_array.getD 255 none = some 255 ∧
    (pushN 256).tail_idx = 255 ∧ (pushN 256).head_idx = 0 := by
  rw [pushN_255, pushN_256]
  decide

/-- C2: the claim states that every state reachable by completed operations
satisfies `0 ≤ T - H ≤ L` and has NULL in every slot outside `[H, T)`.
After 256 pushes into a fresh deque the live range is `[0, 255)` yet slot
255 holds item 255 (the unpublished slow-path store), and after 512 pushes
`T - H = 511` exceeds `array_length = 256` (grow never updates the length
field). -/
theorem c2_invariants_violated_after_256_pushes :
    (pushN 256).head_idx = 0 ∧ (pushN 256).tail_idx = 255 ∧
    (pushN 256).unit_array.getD 255 none = some 255 ∧
    (pushN 512).head_idx = 0 ∧ (pushN 512).tail_idx = 511 ∧
    (pushN 512).array_length = 256 ∧
    (pushN 512).array_length < (pushN 512).tail_idx - (pushN 512).head_idx := by
  rw [pushN_256, pushN_512]
  decide

/-- C3: the claim states that the remove scan walks `i` from `T - 2` down to
`H` and terminates with not-found when the item is absent.  On a fresh deque
(`H = 0`) with an absent item the unsigned exit test `i >= head_idx` is
vacuously true, so for every iteration budget the scan has still not
returned: the loop never terminates. -/
theorem c3_remove_scan_never_terminates (fuel : Nat) :
    deque_remove fuel deque_init 5 = (none, deque_init) := by
  have haux : ∀ f i, removeLoop 5 f i deque_init = (none, deque_init) := by
    intro f
    induction f with
    | zero => intro i; rfl
    | succ g ih =>
      intro i
      have hslot : deque_init.unit_array.getD (i &&& deque_init.mask) none = none :=
        getD_replicate 256 _
      simp only [removeLoop]
      rw [if_pos (show i ≥ deque_init.head_idx from Nat.zero_le i),
        if_neg (by rw [hslot]; exact fun h => Option.noConfusion h)]
      exact ih _
  have hfast : deque_init.unit_array.getD
      (((deque_init.tail_idx + W - 1) % W) &&& deque_init.mask) none = none :=
    getD_replicate 256 _
  simp only [deque_remove]
  rw [if_neg (by rw [hfast]; exact fun h => Option.noConfusion h)]
  exact haux fuel _

/-- C4: pushing the five items 0 (A), 1 (B), 2 (C), 3 (D), 4 (E) and removing
item 2 succeeds, and five sequential steals then return A, B, D, E
(the tombstone left for C is skipped) followed by the NULL sentinel. -/
theorem c4_remove_middle_then_steal :
    (deque_remove 16 (pushN 5) 2).1 = some true ∧
    (stealSeq 5 (deque_remove 16 (pushN 5) 2).2).1 =
      [some 0, some 1, some 3, some 4, none] := by
  decide

/-- C5: the claim states that for every `N`, `N` pushes followed by local
pops to exhaustion return the `N` items in LIFO order and then NULL.  At
`N = 256` the code returns only items 254 down to 0 and then NULL: item 255
was stored by the unpublished slow-path push and is never popped, and the
first pop already returns 254 instead of 255. -/
theorem c5_lifo_roundtrip_fails_at_256 :
    (popSeq 257 (pushN 256)).1 = (List.range 255).reverse.map some ++ [none, none] ∧
    (popSeq 257 (pushN 256)).1 ≠ (List.range 256).reverse.map some ++ [none] := by
  have h : (popSeq 257 (pushN 256)).1 =
      (List.range' 191 64).reverse.map some ++
        ((List.range' 127 64).reverse.map some ++
          ((List.range' 63 64).reverse.map some ++
            ((List.range' 0 63).reverse.map some ++ [none, none]))) := by
    rw [pushN_256, show (257 : Nat) = 64 + (64 + (64 + (63 + 2))) from rfl]
    simp only [popSeq_add, pop_stage_64, pop_stage_128, pop_stage_192, pop_stage_255,
      pop_stage_257]
  rw [h]
  exact ⟨by decide, by decide⟩

/-- C6: the claim states that for every `N`, `N` pushes followed by repeated
steals return the `N` items in FIFO order and then NULL.  At `N = 256` the
code returns only items 0 up to 254 and then NULL: item 255 sits in slot 255
beyond the unpublished tail (`T = 255`), so no steal ever reaches it. -/
theorem c6_fifo_roundtrip_fails_at_256 :
    (stealSeq 257 (pushN 256)).1 = (List.range 255).map some ++ [none, none] ∧
    (stealSeq 257 (pushN 256)).1 ≠ (List.range 256).map some ++ [none] := by
  have h : (stealSeq 257 (pushN 256)).1 =
      (List.range' 0 64).map some ++
        ((List.range' 64 64).map some ++
          ((List.range' 128 64).map some ++
            ((List.range' 192 63).map some ++ [none, none]))) := by
    rw [pushN_256, show (257 : Nat) = 64 + (64 + (64 + (63 + 2))) from rfl]
    simp only [stealSeq_add, steal_stage_64, steal_stage_128, steal_stage_192,
      steal_stage_255, steal_stage_257]
  rw [h]
  exact ⟨by decide, by decide⟩

/-- C8: the claim states that the 257th push grows the deque to `L = 512`
with all 257 items present, the 257 pops returning items 256, 255, ..., 0.
In the code the grow already happens on the 256th push (`count >= mask`
holds at count 255), `array_length` is never updated (it stays 256), the
unpublished tail makes the 257th push overwrite slot 255, so item 255 is
lost, and the second pop returns item 254 instead of 255. -/
theorem c8_grow_loses_item_255 :
    (pushN 257).array_length = 256 ∧
    some 255 ∉ (pushN 257).unit_array ∧
    (popSeq 2 (pushN 257)).1 = [some 256, some 254] ∧
    (popSeq 2 (pushN 257)).1 ≠ [some 256, some 255] := by
  rw [pushN_257]
  decide

/-- C9: on every state with `H ≥ T` (the deque is empty), local pop returns
the NULL sentinel and leaves the whole state - indices, mask, length, every
slot, and the lock - unchanged. -/
theorem c9_pop_local_on_empty_is_identity (m : data_t)
    (h : m.head_idx ≥ m.tail_idx) :
    deque_pop_local m = (none, m) := by
  simp only [deque_pop_local, popLoop]
  rw [if_pos h]

/-- C9 witness: the fresh deque is empty and pop leaves it unchanged. -/
theorem c9_pop_local_on_empty_is_identity_witness :
    deque_init.head_idx ≥ deque_init.tail_idx ∧
    deque_pop_local deque_init = (none, deque_init) :=
  ⟨Nat.le_refl 0, c9_pop_local_on_empty_is_identity deque_init (Nat.le_refl 0)⟩

/-- C10: when the fast-path condition holds (tail below `SIZE_MAX` and
`tail < head + mask` in wrapping arithmetic), push writes only the slot
`tail & mask` (set to the item) and the tail (set to `tail + 1`); the head,
mask, array length, lock, and every other slot are unchanged, and the
foreign lock is not acquired. -/
theorem c10_fast_path_frame (m : data_t) (u : Nat)
    (h1 : m.tail_idx ≠ SIZE_MAX)
    (h2 : m.tail_idx < (m.head_idx + m.mask) % W)
    (h3 : m.tail_idx &&& m.mask < m.unit_array.length) :
    deque_push m u =
      { m with unit_array := m.unit_array.set (m.tail_idx &&& m.mask) (some u)
               tail_idx := (m.tail_idx + 1) % W } ∧
    (deque_push m u).head_idx = m.head_idx ∧
    (deque_push m u).mask = m.mask ∧
    (deque_push m u).array_length = m.array_length ∧
    (deque_push m u).foreign_lock = m.foreign_lock ∧
    (deque_push m u).tail_idx = (m.tail_idx + 1) % W ∧
    (deque_push m u).unit_array.getD (m.tail_idx &&& m.mask) none = some u ∧
    ∀ j, j ≠ m.tail_idx &&& m.mask →
      (deque_push m u).unit_array.getD j none = m.unit_array.getD j none := by
  have hpush : deque_push m u =
      { m with unit_array := m.unit_array.set (m.tail_idx &&& m.mask) (some u)
               tail_idx := (m.tail_idx + 1) % W } := by
    simp only [deque_push]
    rw [if_neg h1, if_pos h2]
  refine ⟨hpush, ?_, ?_, ?_, ?_, ?_, ?_, ?_⟩
  · rw [hpush]
  · rw [hpush]
  · rw [hpush]
  · rw [hpush]
  · rw [hpush]
  · rw [hpush]
    exact getD_set_self _ _ _ h3
  · intro j hj
    rw [hpush]
    exact getD_set_ne _ _ _ _ fun hc => hj hc.symm

/-- C10 witness: a fresh deque satisfies the fast-path conditions and the
first push lands in slot 0 with the tail published as 1. -/
theorem c10_fast_path_frame_witness :
    deque_init.tail_idx ≠ SIZE_MAX ∧
    deque_init.tail_idx < (deque_init.head_idx + deque_init.mask) % W ∧
    deque_init.tail_idx &&& deque_init.mask < deque_init.unit_array.length ∧
    (deque_push deque_init 7).unit_array.getD
      (deque_init.tail_idx &&& deque_init.mask) none = some 7 ∧
    (deque_push deque_init 7).tail_idx = (deque_init.tail_idx + 1) % W :=
  ⟨by decide, by decide, by decide,
    (c10_fast_path_frame deque_init 7 (by decide) (by decide) (by decide)).2.2.2.2.2.2.1,
    (c10_fast_path_frame deque_init 7 (by decide) (by decide) (by decide)).2.2.2.2.2.1⟩

/-- C7 counterexample: the claim quantifies over every pre-state satisfying
the invariants with `T = SIZE_MAX` and asserts that the wrap-guard collapse
preserves `T - H`.  At a full deque (`T - H = L = 256`, every slot holding
an item, all invariants satisfied) the collapse maps both indices to 255,
so the preserved-count equation fails: the collapsed difference is 0, and
after the push the live count is 1 instead of 257. -/
theorem c7_wrap_guard_counterexample :
    wrapFullState.tail_idx = SIZE_MAX ∧
    wrapFullState.mask = wrapFullState.array_length - 1 ∧
    wrapFullState.unit_array.length = wrapFullState.array_length ∧
    wrapFullState.tail_idx - wrapFullState.head_idx = wrapFullState.array_length ∧
    ¬ (SIZE_MAX &&& wrapFullState.mask) - (wrapFullState.head_idx &&& wrapFullState.mask)
        = wrapFullState.tail_idx - wrapFullState.head_idx ∧
    (SIZE_MAX &&& wrapFullState.mask) - (wrapFullState.head_idx &&& wrapFullState.mask) = 0 ∧
    (deque_push wrapFullState 999).tail_idx - (deque_push wrapFullState 999).head_idx = 1 := by
  decide


/-- C7 (amended): when push is called with `T = SIZE_MAX` on a state
satisfying the invariants and holding strictly fewer than `mask` live items,
the wrap guard replaces `H` with `H & mask` and `T` with `T & mask`; the
collapse preserves the live count exactly (`(T & mask) - (H & mask) = T - H`),
the collapsed tail is at most `L`, the pushed item is stored at the collapsed
tail slot with the tail published one past it, and a subsequent local pop
returns the pushed item. -/
theorem c7_wrap_guard_collapse (s : data_t) (u k : Nat)
    (hk1 : 1 ≤ k) (hk2 : k ≤ 63)
    (hlen : s.array_length = 2 ^ k)
    (hmask : s.mask = 2 ^ k - 1)
    (harr : s.unit_array.length = s.array_length)
    (htail : s.tail_idx = SIZE_MAX)
    (hhead : s.head_idx ≤ s.tail_idx)
    (hcount : s.tail_idx - s.head_idx < s.mask) :
    (SIZE_MAX &&& s.mask) - (s.head_idx &&& s.mask) = s.tail_idx - s.head_idx ∧
    SIZE_MAX &&& s.mask ≤ s.array_length ∧
    deque_push s u =
      { s with head_idx := s.head_idx &&& s.mask
               tail_idx := (SIZE_MAX &&& s.mask) + 1
               unit_array := s.unit_array.set (SIZE_MAX &&& s.mask) (some u)
               foreign_lock := s.foreign_lock + 1 } ∧
    (deque_push s u).unit_array.getD (SIZE_MAX &&& s.mask) none = some u ∧
    (deque_pop_local (deque_push s u)).1 = some u := by
  -- basic power facts
  have hL1 : 1 ≤ 2 ^ k := Nat.one_le_two_pow
  have hQ1 : 1 ≤ 2 ^ (64 - k) := Nat.one_le_two_pow
  have hL63 : (2 : Nat) ^ k ≤ 2 ^ 63 := Nat.pow_le_pow_right (by norm_num) hk2
  have h6364 : (2 : Nat) ^ 63 + 2 ^ 63 = 2 ^ 64 := by norm_num
  have hWdef : W = 2 ^ 64 := rfl
  have hW : W = 2 ^ (64 - k) * 2 ^ k := by
    rw [hWdef, ← pow_add]
    congr 1
    omega
  have hWL : 2 ^ k ≤ W := by
    calc 2 ^ k = 1 * 2 ^ k := (one_mul _).symm
    _ ≤ 2 ^ (64 - k) * 2 ^ k := Nat.mul_le_mul_right _ hQ1
    _ = W := hW.symm
  have hWLmul : W - 2 ^ k = (2 ^ (64 - k) - 1) * 2 ^ k := by
    rw [hW, Nat.sub_mul, one_mul]
  -- the collapse of an index in the top window: x & mask = x - (W - L)
  have hmod : ∀ x : Nat, W - 2 ^ k ≤ x → x < W → x % 2 ^ k = x - (W - 2 ^ k) := by
    intro x hx1 hx2
    have hd : x - (W - 2 ^ k) < 2 ^ k := by omega
    have hx : x = (x - (W - 2 ^ k)) + (2 ^ (64 - k) - 1) * 2 ^ k := by
      rw [← hWLmul]
      omega
    conv_lhs => rw [hx]
    rw [Nat.add_mul_mod_self_right]
    exact Nat.mod_eq_of_lt hd
  have handmod : ∀ x : Nat, x &&& s.mask = x % 2 ^ k := by
    intro x
    rw [hmask]
    exact Nat.and_pow_two_sub_one_eq_mod x k
  have htailW : s.tail_idx = W - 1 := htail
  have hheadlb : W - 2 ^ k < s.head_idx := by
    rw [htailW] at hcount hhead
    rw [hmask] at hcount
    omega
  have hheadub : s.head_idx < W := by
    rw [htailW] at hhead
    omega
  have hHmod : s.head_idx % 2 ^ k = s.head_idx - (W - 2 ^ k) :=
    hmod _ (Nat.le_of_lt hheadlb) hheadub
  have hH1 : 1 ≤ s.head_idx % 2 ^ k := by
    rw [hHmod]
    omega
  have hH2 : s.head_idx % 2 ^ k < 2 ^ k := Nat.mod_lt _ (by omega)
  have hTmod : SIZE_MAX % 2 ^ k = 2 ^ k - 1 := by
    rw [show SIZE_MAX = W - 1 from rfl, hmod (W - 1) (by omega) (by omega)]
    omega
  have hand_t : SIZE_MAX &&& s.mask = 2 ^ k - 1 := by rw [handmod, hTmod]
  have hand_h : s.head_idx &&& s.mask = s.head_idx % 2 ^ k := handmod _
  -- part 1: the collapse preserves the live count
  have hpart1 : (SIZE_MAX &&& s.mask) - (s.head_idx &&& s.mask) = s.tail_idx - s.head_idx := by
    rw [hand_t, hand_h, hHmod, htailW]
    omega
  -- part 2: the collapsed tail is at most L
  have hpart2 : SIZE_MAX &&& s.mask ≤ s.array_length := by
    rw [hand_t, hlen]
    omega
  -- the wrap guard collapses both indices
  have hguard : wrapGuard s =
      { s with head_idx := s.head_idx % 2 ^ k
               tail_idx := 2 ^ k - 1
               foreign_lock := s.foreign_lock + 1 } := by
    simp only [wrapGuard]
    rw [if_pos (show ({ s with foreign_lock := s.foreign_lock + 1 } : data_t).tail_idx
        = SIZE_MAX from htail)]
    rw [show ({ s with foreign_lock := s.foreign_lock + 1 } : data_t).head_idx &&& ({ s with foreign_lock := s.foreign_lock + 1 } : data_t).mask = s.head_idx &&& s.mask from rfl]
    rw [show ({ s with foreign_lock := s.foreign_lock + 1 } : data_t).tail_idx &&& ({ s with foreign_lock := s.foreign_lock + 1 } : data_t).mask = s.tail_idx &&& s.mask from rfl]
    rw [hand_h, htail, hand_t]
  -- the push takes the wrap guard and then the fast path
  have hsum : s.head_idx % 2 ^ k + s.mask < W := by
    rw [hmask]
    omega
  have hcond : 2 ^ k - 1 < (s.head_idx % 2 ^ k + s.mask) % W := by
    rw [Nat.mod_eq_of_lt hsum, hmask]
    omega
  have hidx : (2 ^ k - 1) &&& s.mask = 2 ^ k - 1 := by
    rw [handmod]
    exact Nat.mod_eq_of_lt (by omega)
  have htplus : (2 ^ k - 1 + 1) % W = 2 ^ k := by
    rw [Nat.sub_add_cancel hL1]
    exact Nat.mod_eq_of_lt (by omega)
  have hpush : deque_push s u =
      { s with head_idx := s.head_idx % 2 ^ k
               tail_idx := 2 ^ k
               unit_array := s.unit_array.set (2 ^ k - 1) (some u)
               foreign_lock := s.foreign_lock + 1 } := by
    simp only [deque_push]
    rw [if_pos htail, hguard]
    rw [if_pos hcond]
    rw [hidx, htplus]
  -- part 4: the item is stored at the collapsed tail slot
  have hlt : 2 ^ k - 1 < s.unit_array.length := by
    rw [harr, hlen]
    omega
  have hpart4 : (deque_push s u).unit_array.getD (SIZE_MAX &&& s.mask) none = some u := by
    rw [hpush, hand_t]
    exact getD_set_self _ _ _ hlt
  -- part 5: a subsequent local pop returns the pushed item
  have hpart5 : (deque_pop_local (deque_push s u)).1 = some u := by
    rw [hpush]
    simp only [deque_pop_local, popLoop]
    rw [if_neg (show ¬ s.head_idx % 2 ^ k ≥ 2 ^ k from by omega)]
    rw [show (2 ^ k + W - 1) % W = 2 ^ k - 1 from by
      rw [show 2 ^ k + W - 1 = W + (2 ^ k - 1) from by omega, Nat.add_mod_left]
      exact Nat.mod_eq_of_lt (by omega)]
    rw [if_pos (show s.head_idx % 2 ^ k ≤ 2 ^ k - 1 from by omega)]
    rw [hidx]
    rw [getD_set_self _ _ _ hlt]
  refine ⟨hpart1, hpart2, ?_, hpart4, hpart5⟩
  rw [hpush, hand_t, hand_h]
  rw [show (2 ^ k - 1) + 1 = 2 ^ k from by omega]


/-- C7 witness: a concrete state with the tail at `SIZE_MAX`, two live
items and `L = 256` satisfies the hypotheses, and after the wrapping push
the local pop returns the pushed item 77. -/
theorem c7_wrap_guard_collapse_witness :
    wrapState.array_length = 2 ^ 8 ∧
    wrapState.mask = 2 ^ 8 - 1 ∧
    wrapState.unit_array.length = wrapState.array_length ∧
    wrapState.tail_idx = SIZE_MAX ∧
    wrapState.head_idx ≤ wrapState.tail_idx ∧
    wrapState.tail_idx - wrapState.head_idx < wrapState.mask ∧
    (deque_pop_local (deque_push wrapState 77)).1 = some 77 :=
  ⟨by decide, by decide, by decide, by decide, by decide, by decide,
    (c7_wrap_guard_collapse wrapState 77 8 (by decide) (by decide) (by decide) (by decide)
      (by decide) (by decide) (by decide) (by decide)).2.2.2.2⟩


end Deque
